import Mathlib

/-!
Shallow embedding of the live voice-chat session manager in `src/App.tsx`:
the lifecycle state machine (`startChat`, `handleStop`, the transport
callbacks `onopen` / `onmessage` / `onerror` / `onclose`), the playback
scheduler (the `nextStartTimeRef` cursor, `playingSourcesRef` live set),
and the idempotent `cleanup` procedure.

Time is modelled by `ℚ` (the `AudioContext.currentTime` clock and buffer
durations).  The single-threaded event model of the browser is reflected by
making each event handler a pure function from the mutable-ref state to a
new state (plus its observable outputs: scheduled buffers, stopped sources,
console output, whether the async handler rejected).
-/

namespace VideoChat

/-- Lifecycle state, from `src/types` (`ChatStatus`), as used throughout
`src/App.tsx`. -/
inductive ChatStatus
  | IDLE
  | CONNECTING
  | CONNECTED
  | DISCONNECTED
  | ERROR
deriving DecidableEq, Repr

/-- An action registered as a `.then` callback on the pending session
promise: either the `session.close()` registered by `cleanup`, or a
`session.sendRealtimeInput` registered by the capture callback
(`scriptProcessor.onaudioprocess`).  Frames are identified by a number. -/
inductive ConnAction
  | close
  | sendRealtimeInput (frame : ℕ)
deriving DecidableEq, Repr

/-- The observable state of the underlying connection once the session
promise resolves and its queued callbacks run: whether `close()` has been
called, which frames were sent while open, and which frames (if any) were
sent after the close. -/
structure ConnState where
  closed : Bool
  sent : List ℕ
  sentWhileClosed : List ℕ
deriving DecidableEq, Repr

/-- Run one queued `.then` callback against the resolved connection. -/
def runAction (c : ConnState) : ConnAction → ConnState
  | ConnAction.close => { c with closed := true }
  | ConnAction.sendRealtimeInput f =>
      if c.closed then { c with sentWhileClosed := c.sentWhileClosed ++ [f] }
      else { c with sent := c.sent ++ [f] }

/-- Resolution of the session promise: the queued callbacks run in
registration order against the fresh connection. -/
def resolveSession (queue : List ConnAction) : ConnState :=
  queue.foldl runAction { closed := false, sent := [], sentWhileClosed := [] }

/-- A decoded inbound audio buffer (the result of `decodeAudioData`):
float samples and the buffer's duration in seconds. -/
structure AudioBuffer where
  samples : List ℚ
  duration : ℚ
deriving DecidableEq, Repr

/-- Reinterpret an unsigned 16-bit value as a signed 16-bit integer. -/
def toInt16 (n : ℕ) : ℤ :=
  if n < 32768 then (n : ℤ) else (n : ℤ) - 65536

/-- Modelled from the spec: the PCM Framer's `decode` half
(`src/utils/audio`, not present under `src/`): a byte payload is parsed as
little-endian signed 16-bit PCM; decoding fails if the byte length is odd
(`MalformedFrame`). -/
def decodePcm16 : List ℕ → Option (List ℤ)
  | [] => some []
  | [_] => none
  | lo :: hi :: rest =>
      (decodePcm16 rest).map fun t => toInt16 (lo % 256 + 256 * (hi % 256)) :: t

/-- Modelled from the spec: `decodeAudioData` (`src/utils/audio`, not
present under `src/`): decode bytes to int16 samples, scale by `1/32768`
to floats, and build a mono buffer at the fixed 24 kHz output rate, so its
duration is `sampleCount / 24000` seconds.  Fails on a malformed payload. -/
def decodeAudioData (bytes : List ℕ) : Option AudioBuffer :=
  (decodePcm16 bytes).map fun ints =>
    { samples := ints.map fun v => (v : ℚ) / 32768
      duration := (ints.length : ℚ) / 24000 }

/-- An inbound `LiveServerMessage`, reduced to the two fields `onmessage`
reads: `serverContent?.modelTurn?.parts[0]?.inlineData?.data` (here already
base64-decoded to a byte list, `none` when absent) and
`serverContent?.interrupted`. -/
structure LiveServerMessage where
  audioData : Option (List ℕ)
  interrupted : Bool
deriving DecidableEq, Repr

/-- The mutable refs of the `App` component plus the visible `status`
state.  `sessionPromiseRef` records whether the ref currently points at the
session promise; `promiseQueue` holds the `.then` callbacks registered on
that promise while it is pending (they survive nulling the ref, as the
promise object does in the source).  Playback sources are identified by a
counter `nextSourceId`; the live set `playingSources` holds their ids. -/
structure AppState where
  status : ChatStatus
  localStream : Option ℕ
  sessionPromiseRef : Bool
  promiseQueue : List ConnAction
  inputAudioProcessor : Bool
  playingSources : Finset ℕ
  outputAudioContext : Bool
  nextStartTime : ℚ
  nextSourceId : ℕ
deriving DecidableEq

/-- The component's initial state: `useState(ChatStatus.IDLE)` and all refs
null / empty / zero. -/
def initialState : AppState :=
  { status := ChatStatus.IDLE
    localStream := none
    sessionPromiseRef := false
    promiseQueue := []
    inputAudioProcessor := false
    playingSources := ∅
    outputAudioContext := false
    nextStartTime := 0
    nextSourceId := 0 }

/-- `cleanup` (src/App.tsx lines 108-135): stop and null the local stream;
register `session.close()` on the session promise and null the ref;
disconnect and null the input audio processor; stop every playing source
and clear the set; close and null the output audio context; reset
`nextStartTimeRef` to 0.  Each step is guarded by a null check exactly as
in the source. -/
def cleanup (s : AppState) : AppState :=
  let s1 := if s.localStream.isSome then { s with localStream := none } else s
  let s2 := if s1.sessionPromiseRef then
      { s1 with promiseQueue := s1.promiseQueue ++ [ConnAction.close]
                sessionPromiseRef := false }
    else s1
  let s3 := if s2.inputAudioProcessor then { s2 with inputAudioProcessor := false } else s2
  let s4 := { s3 with playingSources := ∅ }
  let s5 := { s4 with outputAudioContext := false }
  { s5 with nextStartTime := 0 }

theorem cleanup_eq (s : AppState) :
    cleanup s =
      { status := s.status
        localStream := none
        sessionPromiseRef := false
        promiseQueue :=
          if s.sessionPromiseRef then s.promiseQueue ++ [ConnAction.close]
          else s.promiseQueue
        inputAudioProcessor := false
        playingSources := ∅
        outputAudioContext := false
        nextStartTime := 0
        nextSourceId := s.nextSourceId } := by
  cases s
  simp only [cleanup]
  split_ifs <;> simp_all

/-- The scheduling core of `onmessage` (src/App.tsx lines 190-203), acting
at output-clock time `now` on a decoded buffer: bump the cursor to
`max(cursor, now)`, create a fresh source, start it at the cursor, advance
the cursor by the buffer's duration, add the source to the live set.
Returns the new state, the fresh source id, and the scheduled start time. -/
def enqueue (now : ℚ) (buf : AudioBuffer) (s : AppState) : AppState × ℕ × ℚ :=
  let startAt := max s.nextStartTime now
  ({ s with nextStartTime := startAt + buf.duration
            playingSources := insert s.nextSourceId s.playingSources
            nextSourceId := s.nextSourceId + 1 },
   s.nextSourceId, startAt)

/-- The `ended` listener of a scheduled source (src/App.tsx lines 197-199):
natural completion deletes the source from the live set. -/
def onended (srcId : ℕ) (s : AppState) : AppState :=
  { s with playingSources := s.playingSources.erase srcId }

/-- Everything observable about one run of the `onmessage` handler: the
state it leaves behind, the buffer it scheduled (source id, start time,
duration), the sources the interrupted branch stopped, the console output
it produced, and whether the async handler's promise rejected. -/
structure MessageOutcome where
  state : AppState
  scheduled : Option (ℕ × ℚ × ℚ)
  stopped : Finset ℕ
  logs : List String
  threw : Bool
deriving DecidableEq

/-- `onmessage` (src/App.tsx lines 186-211) at output-clock time `now`.
If the message carries audio and the output context is live, the cursor is
first bumped to `max(cursor, now)`; then the payload is decoded.  A decode
failure rejects the async handler — the rest of the handler, including the
`interrupted` check, is skipped, and nothing is logged (the handler has no
try/catch).  On success the buffer is enqueued.  Finally, if the message's
`interrupted` flag is set, every live source is stopped, the live set is
cleared, and the cursor is reset to 0. -/
def onmessage (now : ℚ) (msg : LiveServerMessage) (s : AppState) : MessageOutcome :=
  match msg.audioData, s.outputAudioContext with
  | some bytes, true =>
      match decodeAudioData bytes with
      | none =>
          { state := { s with nextStartTime := max s.nextStartTime now }
            scheduled := none
            stopped := ∅
            logs := []
            threw := true }
      | some buf =>
          let r := enqueue now buf s
          if msg.interrupted then
            { state := { r.1 with playingSources := ∅, nextStartTime := 0 }
              scheduled := some (r.2.1, r.2.2, buf.duration)
              stopped := r.1.playingSources
              logs := []
              threw := false }
          else
            { state := r.1
              scheduled := some (r.2.1, r.2.2, buf.duration)
              stopped := ∅
              logs := []
              threw := false }
  | _, _ =>
      if msg.interrupted then
        { state := { s with playingSources := ∅, nextStartTime := 0 }
          scheduled := none
          stopped := s.playingSources
          logs := []
          threw := false }
      else
        { state := s, scheduled := none, stopped := ∅, logs := [], threw := false }

/-- One firing of `scriptProcessor.onaudioprocess` (src/App.tsx lines
172-180): if `sessionPromiseRef.current` is non-null, register a
`sendRealtimeInput` callback on the session promise; otherwise do
nothing. -/
def onaudioprocess (frame : ℕ) (s : AppState) : AppState :=
  if s.sessionPromiseRef then
    { s with promiseQueue := s.promiseQueue ++ [ConnAction.sendRealtimeInput frame] }
  else s

/-- `onopen` (src/App.tsx lines 168-185): wire the capture processor and
set the status to CONNECTED. -/
def onopen (s : AppState) : AppState :=
  { s with inputAudioProcessor := true, status := ChatStatus.CONNECTED }

/-- `onerror` (src/App.tsx lines 212-216): log the error, set the status to
ERROR unconditionally, and run `cleanup` (which leaves the status
untouched). -/
def onerror (s : AppState) : AppState :=
  cleanup { s with status := ChatStatus.ERROR }

/-- `onclose` (src/App.tsx lines 217-221): only overwrite the status when
it is still CONNECTED or CONNECTING; nothing else is touched. -/
def onclose (s : AppState) : AppState :=
  { s with status :=
      if s.status = ChatStatus.CONNECTED ∨ s.status = ChatStatus.CONNECTING then
        ChatStatus.DISCONNECTED
      else s.status }

/-- `handleStop` (src/App.tsx lines 232-235): set the status to
DISCONNECTED and run `cleanup`. -/
def handleStop (s : AppState) : AppState :=
  cleanup { s with status := ChatStatus.DISCONNECTED }

/-- The external circumstances of one `startChat` attempt: whether
`getUserMedia` resolves, and whether `process.env.API_KEY` is set. -/
structure Env where
  userMediaGranted : Bool
  apiKeyPresent : Bool
deriving DecidableEq, Repr

/-- External acquisition effects `startChat` can perform, in the order it
performs them. -/
inductive Effect
  | getUserMedia
  | liveConnect
deriving DecidableEq, Repr

/-- `startChat` (src/App.tsx lines 137-230): run `cleanup`, set status to
CONNECTING, then in a try block: await `getUserMedia` (audio+video) and
store the stream; check `process.env.API_KEY` and throw if absent; create
the output audio context and initiate `ai.live.connect`, storing the
pending session promise.  The catch block sets status to ERROR and runs
`cleanup`.  Returns the resulting state and the list of acquisition
effects attempted, in order. -/
def startChat (env : Env) (s : AppState) : AppState × List Effect :=
  let s1 := { cleanup s with status := ChatStatus.CONNECTING }
  if env.userMediaGranted then
    let s2 := { s1 with localStream := some 0 }
    if env.apiKeyPresent then
      ({ s2 with outputAudioContext := true
                 sessionPromiseRef := true
                 promiseQueue := [] },
       [Effect.getUserMedia, Effect.liveConnect])
    else
      (cleanup { s2 with status := ChatStatus.ERROR }, [Effect.getUserMedia])
  else
    (cleanup { s1 with status := ChatStatus.ERROR }, [])

/-- The start times produced by a sequence of `enqueue` calls, each tagged
with the output-clock reading at the moment of the call. -/
def enqueueStarts (s : AppState) : List (ℚ × AudioBuffer) → List ℚ
  | [] => []
  | (now, buf) :: evs =>
      (enqueue now buf s).2.2 :: enqueueStarts (enqueue now buf s).1 evs

/-- A representative in-session state: connected, all resources live. -/
def connectedState : AppState :=
  { status := ChatStatus.CONNECTED
    localStream := some 0
    sessionPromiseRef := true
    promiseQueue := []
    inputAudioProcessor := true
    playingSources := ∅
    outputAudioContext := true
    nextStartTime := 0
    nextSourceId := 0 }

theorem duration_nonneg {bytes : List ℕ} {buf : AudioBuffer}
    (h : decodeAudioData bytes = some buf) : 0 ≤ buf.duration := by
  unfold decodeAudioData at h
  cases hp : decodePcm16 bytes with
  | none => rw [hp] at h; exact absurd h (by simp)
  | some ints =>
      rw [hp] at h
      rw [Option.map_eq_some'] at h
      obtain ⟨ints2, _, hb⟩ := h
      rw [← hb]
      positivity

theorem chain_mono_head {a b : ℚ} {l : List ℚ} (hab : a ≤ b)
    (h : List.Chain (· ≤ ·) b l) : List.Chain (· ≤ ·) a l := by
  cases l with
  | nil => exact List.Chain.nil
  | cons x xs =>
      cases h with
      | cons hbx hxs => exact List.Chain.cons (le_trans hab hbx) hxs

theorem chain_imp_chain_of_cons {c : ℚ} {l : List ℚ}
    (h : List.Chain (· ≤ ·) c l) : List.Chain' (· ≤ ·) l := by
  cases l with
  | nil => exact trivial
  | cons x xs => cases h with | cons hcx hxs => exact hxs

theorem enqueue_state_nextStartTime (now : ℚ) (buf : AudioBuffer) (s : AppState) :
    (enqueue now buf s).1.nextStartTime = max s.nextStartTime now + buf.duration := rfl

theorem enqueueStarts_chain (evs : List (ℚ × AudioBuffer)) :
    ∀ s : AppState, (∀ ev ∈ evs, 0 ≤ ev.2.duration) →
      List.Chain (· ≤ ·) s.nextStartTime (enqueueStarts s evs) := by
  induction evs with
  | nil => intro s _; exact List.Chain.nil
  | cons ev evs ih =>
      intro s h
      obtain ⟨now, buf⟩ := ev
      have hd : 0 ≤ buf.duration := h (now, buf) (List.mem_cons_self _ _)
      have hrest := ih (enqueue now buf s).1 fun e he => h e (List.mem_cons_of_mem _ he)
      refine List.Chain.cons (le_max_left _ _) ?_
      refine chain_mono_head ?_ hrest
      rw [enqueue_state_nextStartTime]
      exact le_add_of_nonneg_right hd

theorem enqueueStarts_ge_now (evs : List (ℚ × AudioBuffer)) :
    ∀ s : AppState,
      List.Forall₂ (fun ev st => ev.1 ≤ st) evs (enqueueStarts s evs) := by
  induction evs with
  | nil => intro s; exact List.Forall₂.nil
  | cons ev evs ih =>
      intro s
      obtain ⟨now, buf⟩ := ev
      exact List.Forall₂.cons (le_max_right _ _) (ih (enqueue now buf s).1)

theorem foldl_sends (frames : List ℕ) :
    ∀ sent0 : List ℕ,
      List.foldl runAction ⟨false, sent0, []⟩ (frames.map ConnAction.sendRealtimeInput)
        = ⟨false, sent0 ++ frames, []⟩ := by
  induction frames with
  | nil => intro sent0; simp
  | cons f fs ih =>
      intro sent0
      simp only [List.map_cons, List.foldl_cons]
      rw [show runAction ⟨false, sent0, []⟩ (ConnAction.sendRealtimeInput f)
            = ⟨false, sent0 ++ [f], []⟩ from rfl]
      rw [ih (sent0 ++ [f])]
      simp

theorem decode_sample_eq :
    decodeAudioData [0, 0] = some { samples := [0], duration := 1/24000 } := by
  norm_num [decodeAudioData, decodePcm16, toInt16]

/-- Claim C1: an inbound audio message enqueues the decoded buffer: the
scheduled start time is `max(cursor, now)`, the cursor advances to start
plus duration, the fresh handle joins the live set, natural completion
(`ended`) removes it; and over any sequence of enqueue calls the start
times are non-decreasing and each is at least the output clock's reading at
the moment of its call. -/
theorem onmessage_enqueue_spec (s : AppState) (now : ℚ) (bytes : List ℕ)
    (buf : AudioBuffer) (hctx : s.outputAudioContext = true)
    (hdec : decodeAudioData bytes = some buf) :
    (onmessage now { audioData := some bytes, interrupted := false } s).scheduled
      = some (s.nextSourceId, max s.nextStartTime now, buf.duration)
    ∧ (onmessage now { audioData := some bytes, interrupted := false } s).state.nextStartTime
      = max s.nextStartTime now + buf.duration
    ∧ (onmessage now { audioData := some bytes, interrupted := false } s).state.playingSources
      = insert s.nextSourceId s.playingSources
    ∧ (onended s.nextSourceId
        (onmessage now { audioData := some bytes, interrupted := false } s).state).playingSources
      = s.playingSources.erase s.nextSourceId
    ∧ s.nextSourceId ∉ (onended s.nextSourceId
        (onmessage now { audioData := some bytes, interrupted := false } s).state).playingSources
    ∧ ∀ evs : List (ℚ × AudioBuffer), (∀ ev ∈ evs, 0 ≤ ev.2.duration) →
        List.Chain' (· ≤ ·) (enqueueStarts s evs)
        ∧ List.Forall₂ (fun ev st => ev.1 ≤ st) evs (enqueueStarts s evs) := by
  refine ⟨?_, ?_, ?_, ?_, ?_, ?_⟩
  · simp [onmessage, hctx, hdec, enqueue]
  · simp [onmessage, hctx, hdec, enqueue]
  · simp [onmessage, hctx, hdec, enqueue]
  · simp [onmessage, hctx, hdec, enqueue, onended, Finset.erase_insert_eq_erase]
  · simp [onmessage, hctx, hdec, enqueue, onended, Finset.not_mem_erase]
  · intro evs hdur
    exact ⟨chain_imp_chain_of_cons (enqueueStarts_chain evs s hdur),
      enqueueStarts_ge_now evs s⟩

theorem onmessage_enqueue_spec_witness :
    (onmessage 1 { audioData := some [0, 0], interrupted := false } connectedState).scheduled
      = some (0, max connectedState.nextStartTime 1,
          ({ samples := [0], duration := 1/24000 } : AudioBuffer).duration)
    ∧ List.Chain' (· ≤ ·)
        (enqueueStarts connectedState [(1, { samples := [0], duration := 1/24000 })]) := by
  have h := onmessage_enqueue_spec connectedState 1 [0, 0]
    { samples := [0], duration := 1/24000 } rfl decode_sample_eq
  refine ⟨h.1, ?_⟩
  refine (h.2.2.2.2.2 [(1, { samples := [0], duration := 1/24000 })] ?_).1
  intro ev hev
  simp only [List.mem_singleton] at hev
  subst hev
  norm_num

/-- Claim C2 counterexample: the claimed invariant `cursor ≥ now` (and the
claim that interruption resets the cursor to the clock's current time, and
that the cursor only moves forward) fails on a concrete trace: enqueue one
buffer at clock time 0, then receive an interruption at clock time 1/24000.
The code resets the cursor to 0, which is below the clock and below the
previous cursor value. -/
theorem cursor_invariant_cex :
    (onmessage (1/24000) { audioData := none, interrupted := true }
        (onmessage 0 { audioData := some [0, 0], interrupted := false }
          connectedState).state).state.nextStartTime
      < 1/24000
    ∧ (onmessage (1/24000) { audioData := none, interrupted := true }
        (onmessage 0 { audioData := some [0, 0], interrupted := false }
          connectedState).state).state.nextStartTime
      < (onmessage 0 { audioData := some [0, 0], interrupted := false }
          connectedState).state.nextStartTime := by
  constructor <;>
    norm_num [onmessage, enqueue, connectedState, decodeAudioData, decodePcm16, toInt16]

/-- Claim C2 (amended): the cursor never moves backward on a
non-interrupted message, and after a message that carries audio (with a
live output context) it is at least the clock reading passed to that call;
interruption, `cleanup` and `startChat` reset the cursor to 0 — not to the
output clock's current time, so `cursor ≥ now` need not hold between an
interruption (or an idle stretch) and the next enqueue. -/
theorem cursor_amended (s : AppState) (now : ℚ) (msg : LiveServerMessage)
    (hni : msg.interrupted = false) :
    s.nextStartTime ≤ (onmessage now msg s).state.nextStartTime
    ∧ (∀ bytes, msg.audioData = some bytes → s.outputAudioContext = true →
        now ≤ (onmessage now msg s).state.nextStartTime)
    ∧ (onmessage now { audioData := none, interrupted := true } s).state.nextStartTime = 0
    ∧ (cleanup s).nextStartTime = 0
    ∧ ∀ env : Env, (startChat env s).1.nextStartTime = 0 := by
  refine ⟨?_, ?_, ?_, ?_, ?_⟩
  · cases haud : msg.audioData with
    | none => simp [onmessage, haud, hni]
    | some bytes =>
        cases hctx : s.outputAudioContext with
        | false => simp [onmessage, haud, hctx, hni]
        | true =>
            cases hdec : decodeAudioData bytes with
            | none => simp [onmessage, haud, hctx, hdec, hni]
            | some buf =>
                simp [onmessage, haud, hctx, hdec, hni, enqueue]
                exact le_trans (le_max_left _ _)
                  (le_add_of_nonneg_right (duration_nonneg hdec))
  · intro bytes haud hctx
    cases hdec : decodeAudioData bytes with
    | none => simp [onmessage, haud, hctx, hdec, hni]
    | some buf =>
        simp [onmessage, haud, hctx, hdec, hni, enqueue]
        exact le_trans (le_max_right _ _)
          (le_add_of_nonneg_right (duration_nonneg hdec))
  · cases hctx : s.outputAudioContext <;> simp [onmessage, hctx]
  · simp [cleanup_eq]
  · intro env
    obtain ⟨gm, key⟩ := env
    cases gm <;> cases key <;> simp [startChat, cleanup_eq]

theorem cursor_amended_witness :
    connectedState.nextStartTime
      ≤ (onmessage 1 { audioData := some [0, 0], interrupted := false }
          connectedState).state.nextStartTime
    ∧ (1 : ℚ) ≤ (onmessage 1 { audioData := some [0, 0], interrupted := false }
          connectedState).state.nextStartTime
    ∧ (onmessage 1 { audioData := none, interrupted := true }
          connectedState).state.nextStartTime = 0
    ∧ (cleanup connectedState).nextStartTime = 0
    ∧ (startChat { userMediaGranted := true, apiKeyPresent := true }
          connectedState).1.nextStartTime = 0 := by
  obtain ⟨h1, h2, h3, h4, h5⟩ :=
    cursor_amended connectedState 1 { audioData := some [0, 0], interrupted := false } rfl
  exact ⟨h1, h2 [0, 0] rfl rfl, h3, h4, h5 _⟩

/-- Claim C3 counterexample: after an interruption arriving at clock time
1/2 with the cursor at 1, the cursor is reset to 0, which is strictly below
the clock's current time — not "to the output clock's current time" as
claimed. -/
theorem interrupt_cursor_cex :
    (onmessage (1/2) { audioData := none, interrupted := true }
        { connectedState with playingSources := {0, 1}, nextStartTime := 1 }).state.nextStartTime
      < 1/2 := by
  norm_num [onmessage, connectedState]

/-- Claim C3 (amended): an interruption message stops every live handle
(the stopped set is exactly the prior live set), leaves the live set empty
and the status untouched, and resets the cursor to 0 — which can be below
the output clock's current time — regardless of how many handles were
pending. -/
theorem interrupt_clears_state (s : AppState) (now : ℚ) :
    (onmessage now { audioData := none, interrupted := true } s).stopped
      = s.playingSources
    ∧ (onmessage now { audioData := none, interrupted := true } s).state.playingSources = ∅
    ∧ (onmessage now { audioData := none, interrupted := true } s).state.nextStartTime = 0
    ∧ (onmessage now { audioData := none, interrupted := true } s).state.status
      = s.status := by
  refine ⟨rfl, rfl, rfl, rfl⟩

/-- Claim C4 counterexample: with the credential absent (and the
microphone available), `startChat` does end in ERROR, but its effect trace
contains the `getUserMedia` acquisition — device acquisition is attempted
before the credential check fails, contrary to the claim. -/
theorem start_missing_key_cex :
    (startChat { userMediaGranted := true, apiKeyPresent := false }
        initialState).1.status = ChatStatus.ERROR
    ∧ Effect.getUserMedia ∈
        (startChat { userMediaGranted := true, apiKeyPresent := false } initialState).2 := by
  refine ⟨rfl, ?_⟩
  simp [startChat, initialState]

/-- Claim C4 (amended): if the credential is absent, `startChat` ends in
ERROR with every resource released and no remote connection attempted, but
the `getUserMedia` device acquisition IS attempted (and, when granted, the
acquired stream is then released by the cleanup) before the failure
surfaces, because the source checks `process.env.API_KEY` only after
awaiting `getUserMedia`. -/
theorem start_missing_key_error (s : AppState) (env : Env)
    (hkey : env.apiKeyPresent = false) :
    (startChat env s).1.status = ChatStatus.ERROR
    ∧ Effect.liveConnect ∉ (startChat env s).2
    ∧ (startChat env s).1.localStream = none
    ∧ (startChat env s).1.sessionPromiseRef = false
    ∧ (startChat env s).1.outputAudioContext = false
    ∧ (startChat env s).1.nextStartTime = 0
    ∧ (env.userMediaGranted = true →
        Effect.getUserMedia ∈ (startChat env s).2) := by
  obtain ⟨gm, key⟩ := env
  simp only [Env.apiKeyPresent] at hkey
  subst hkey
  cases gm <;> simp [startChat, cleanup_eq]

theorem start_missing_key_error_witness :
    (startChat { userMediaGranted := true, apiKeyPresent := false }
        initialState).1.status = ChatStatus.ERROR
    ∧ Effect.liveConnect ∉
        (startChat { userMediaGranted := true, apiKeyPresent := false } initialState).2
    ∧ Effect.getUserMedia ∈
        (startChat { userMediaGranted := true, apiKeyPresent := false } initialState).2 := by
  obtain ⟨h1, h2, _, _, _, _, h7⟩ :=
    start_missing_key_error initialState
      { userMediaGranted := true, apiKeyPresent := false } rfl
  exact ⟨h1, h2, h7 rfl⟩

/-- Claim C5 counterexample: a message whose audio payload fails to decode
(a single odd byte) is indeed dropped — the handler rejects and schedules
nothing — but the handler's console output is empty: no warning is logged,
contrary to the claim (the source `onmessage` has no try/catch and no
logging on the decode path). -/
theorem decode_failure_log_cex :
    (onmessage 0 { audioData := some [0], interrupted := false } connectedState).logs = []
    ∧ (onmessage 0 { audioData := some [0], interrupted := false } connectedState).threw
      = true
    ∧ (onmessage 0 { audioData := some [0], interrupted := false } connectedState).scheduled
      = none := by
  refine ⟨rfl, rfl, rfl⟩

/-- Claim C5 (amended): a message whose audio payload fails to decode is
dropped — nothing is scheduled, the live set and the lifecycle status are
untouched — but with no logged warning (the async handler simply rejects);
the scheduler keeps running: a subsequent well-formed message schedules
normally (the dropped frame merely bumped the cursor to `max(cursor, now)`). -/
theorem decode_failure_dropped (s : AppState) (now : ℚ) (bytes : List ℕ)
    (hctx : s.outputAudioContext = true)
    (hbad : decodeAudioData bytes = none) :
    (onmessage now { audioData := some bytes, interrupted := false } s).threw = true
    ∧ (onmessage now { audioData := some bytes, interrupted := false } s).scheduled = none
    ∧ (onmessage now { audioData := some bytes, interrupted := false } s).logs = []
    ∧ (onmessage now { audioData := some bytes, interrupted := false } s).state.status
      = s.status
    ∧ (onmessage now { audioData := some bytes, interrupted := false } s).state.playingSources
      = s.playingSources
    ∧ ∀ (nowB : ℚ) (bytesB : List ℕ) (bufB : AudioBuffer),
        decodeAudioData bytesB = some bufB →
        (onmessage nowB { audioData := some bytesB, interrupted := false }
            (onmessage now { audioData := some bytes, interrupted := false } s).state).scheduled
          = some (s.nextSourceId, max (max s.nextStartTime now) nowB, bufB.duration) := by
  refine ⟨?_, ?_, ?_, ?_, ?_, ?_⟩
  · simp [onmessage, hctx, hbad]
  · simp [onmessage, hctx, hbad]
  · simp [onmessage, hctx, hbad]
  · simp [onmessage, hctx, hbad]
  · simp [onmessage, hctx, hbad]
  · intro nowB bytesB bufB hB
    simp [onmessage, hctx, hbad, hB, enqueue]

theorem decode_failure_dropped_witness :
    (onmessage 0 { audioData := some [0], interrupted := false } connectedState).threw = true
    ∧ (onmessage 0 { audioData := some [0], interrupted := false }
        connectedState).state.status = connectedState.status
    ∧ (onmessage 1 { audioData := some [0, 0], interrupted := false }
        (onmessage 0 { audioData := some [0], interrupted := false }
          connectedState).state).scheduled
      = some (connectedState.nextSourceId, max (max connectedState.nextStartTime 0) 1,
          ({ samples := [0], duration := 1/24000 } : AudioBuffer).duration) := by
  obtain ⟨h1, _, _, h4, _, h6⟩ :=
    decode_failure_dropped connectedState 0 [0] rfl rfl
  exact ⟨h1, h4, h6 1 [0, 0] _ decode_sample_eq⟩

/-- Claim C6 counterexample: `onclose` fired in the CONNECTED state does
set the status to DISCONNECTED, but no cleanup runs: the microphone
stream, the capture processor and the output audio context are all still
held afterwards, contrary to the claim that full cleanup runs. -/
theorem onclose_no_cleanup_cex :
    (onclose connectedState).status = ChatStatus.DISCONNECTED
    ∧ (onclose connectedState).localStream = some 0
    ∧ (onclose connectedState).inputAudioProcessor = true
    ∧ (onclose connectedState).outputAudioContext = true := by
  refine ⟨rfl, rfl, rfl, rfl⟩

/-- Claim C6 (amended): `onclose` sets the status to DISCONNECTED exactly
when the current status is CONNECTED or CONNECTING and leaves it unchanged
otherwise, and it performs no cleanup at all — every resource field of the
state is left exactly as it was. -/
theorem onclose_guarded (s : AppState) :
    (onclose s).status =
      (if s.status = ChatStatus.CONNECTED ∨ s.status = ChatStatus.CONNECTING then
        ChatStatus.DISCONNECTED
      else s.status)
    ∧ (onclose s).localStream = s.localStream
    ∧ (onclose s).sessionPromiseRef = s.sessionPromiseRef
    ∧ (onclose s).promiseQueue = s.promiseQueue
    ∧ (onclose s).inputAudioProcessor = s.inputAudioProcessor
    ∧ (onclose s).playingSources = s.playingSources
    ∧ (onclose s).outputAudioContext = s.outputAudioContext
    ∧ (onclose s).nextStartTime = s.nextStartTime := by
  refine ⟨rfl, rfl, rfl, rfl, rfl, rfl, rfl, rfl⟩

/-- Claim C7: `cleanup` is idempotent, `handleStop` is idempotent and safe
in any state (including IDLE / DISCONNECTED), after `cleanup` every
resource handle is null / released and the cursor is reset, and `cleanup`
on the never-acquired initial state is a no-op. -/
theorem cleanup_idempotent (s : AppState) :
    cleanup (cleanup s) = cleanup s
    ∧ handleStop (handleStop s) = handleStop s
    ∧ (handleStop s).status = ChatStatus.DISCONNECTED
    ∧ (cleanup s).localStream = none
    ∧ (cleanup s).sessionPromiseRef = false
    ∧ (cleanup s).inputAudioProcessor = false
    ∧ (cleanup s).playingSources = ∅
    ∧ (cleanup s).outputAudioContext = false
    ∧ (cleanup s).nextStartTime = 0
    ∧ cleanup initialState = initialState := by
  refine ⟨?_, ?_, ?_, ?_, ?_, ?_, ?_, ?_, ?_, ?_⟩ <;>
    simp [cleanup_eq, handleStop, initialState]

/-- Claim C8: if `cleanup` runs while the session promise is still pending
(outstanding callbacks are just the capture path's queued sends), the
close intent is recorded on the promise and the ref is nulled; when the
connection later resolves, the queued sends flush first and the connection
ends closed, with nothing sent after the close; and once the ref is null a
later capture window registers no send at all. -/
theorem close_intent_recorded (s : AppState) (frames : List ℕ)
    (href : s.sessionPromiseRef = true)
    (hq : s.promiseQueue = frames.map ConnAction.sendRealtimeInput) :
    (cleanup s).sessionPromiseRef = false
    ∧ (cleanup s).promiseQueue = s.promiseQueue ++ [ConnAction.close]
    ∧ (resolveSession (cleanup s).promiseQueue).closed = true
    ∧ (resolveSession (cleanup s).promiseQueue).sentWhileClosed = []
    ∧ (resolveSession (cleanup s).promiseQueue).sent = frames
    ∧ ∀ f, onaudioprocess f (cleanup s) = cleanup s := by
  have hc : (cleanup s).promiseQueue = s.promiseQueue ++ [ConnAction.close] := by
    simp [cleanup_eq, href]
  have hres : resolveSession (cleanup s).promiseQueue
      = { closed := true, sent := frames, sentWhileClosed := [] } := by
    rw [hc, hq]
    unfold resolveSession
    rw [List.foldl_append, foldl_sends]
    rfl
  refine ⟨by simp [cleanup_eq], hc, ?_, ?_, ?_, ?_⟩
  · rw [hres]
  · rw [hres]
  · rw [hres]
  · intro f
    simp [onaudioprocess, cleanup_eq]

theorem close_intent_recorded_witness :
    (cleanup { connectedState with
        promiseQueue := [ConnAction.sendRealtimeInput 5] }).sessionPromiseRef = false
    ∧ (resolveSession (cleanup { connectedState with
        promiseQueue := [ConnAction.sendRealtimeInput 5] }).promiseQueue).closed = true
    ∧ (resolveSession (cleanup { connectedState with
        promiseQueue := [ConnAction.sendRealtimeInput 5] }).promiseQueue).sentWhileClosed
      = []
    ∧ (resolveSession (cleanup { connectedState with
        promiseQueue := [ConnAction.sendRealtimeInput 5] }).promiseQueue).sent = [5] := by
  obtain ⟨h1, _, h3, h4, h5, _⟩ :=
    close_intent_recorded
      { connectedState with promiseQueue := [ConnAction.sendRealtimeInput 5] } [5] rfl rfl
  exact ⟨h1, h3, h4, h5⟩

/-- Claim C9: if buffer B is enqueued immediately after buffer A with no
interruption between them, and A's start time (`max(cursor, nowA)`) was
already at least the clock's reading when B was enqueued, then B starts
exactly at A's start time plus A's duration — back to back, no gap, no
overlap. -/
theorem gapless_contiguity (s : AppState) (nowA nowB : ℚ)
    (bytesA bytesB : List ℕ) (bufA bufB : AudioBuffer)
    (hctx : s.outputAudioContext = true)
    (hA : decodeAudioData bytesA = some bufA)
    (hB : decodeAudioData bytesB = some bufB)
    (hstart : nowB ≤ max s.nextStartTime nowA) :
    (onmessage nowA { audioData := some bytesA, interrupted := false } s).scheduled
      = some (s.nextSourceId, max s.nextStartTime nowA, bufA.duration)
    ∧ (onmessage nowB { audioData := some bytesB, interrupted := false }
        (onmessage nowA { audioData := some bytesA, interrupted := false } s).state).scheduled
      = some (s.nextSourceId + 1, max s.nextStartTime nowA + bufA.duration,
          bufB.duration) := by
  constructor
  · simp [onmessage, hctx, hA, enqueue]
  · have hd := duration_nonneg hA
    have hmax : max (max s.nextStartTime nowA + bufA.duration) nowB
        = max s.nextStartTime nowA + bufA.duration :=
      max_eq_left (le_trans hstart (le_add_of_nonneg_right hd))
    simp [onmessage, hctx, hA, hB, enqueue, hmax]

theorem gapless_contiguity_witness :
    (onmessage 1 { audioData := some [0, 0], interrupted := false } connectedState).scheduled
      = some (0, max connectedState.nextStartTime 1,
          ({ samples := [0], duration := 1/24000 } : AudioBuffer).duration)
    ∧ (onmessage 1 { audioData := some [0, 0], interrupted := false }
        (onmessage 1 { audioData := some [0, 0], interrupted := false }
          connectedState).state).scheduled
      = some (1, max connectedState.nextStartTime 1
            + ({ samples := [0], duration := 1/24000 } : AudioBuffer).duration,
          ({ samples := [0], duration := 1/24000 } : AudioBuffer).duration) := by
  refine gapless_contiguity connectedState 1 1 [0, 0] [0, 0]
    { samples := [0], duration := 1/24000 } { samples := [0], duration := 1/24000 }
    rfl decode_sample_eq decode_sample_eq ?_
  norm_num [connectedState]

/-- Claim C10: a transport error unconditionally sets the status to ERROR
and runs full cleanup, in every lifecycle state — in particular a transport
error arriving after an explicit stop overwrites the DISCONNECTED status
with ERROR, whereas `onclose` after a stop leaves it at DISCONNECTED. -/
theorem onerror_unconditional (s : AppState) :
    (onerror s).status = ChatStatus.ERROR
    ∧ (onerror s).localStream = none
    ∧ (onerror s).sessionPromiseRef = false
    ∧ (onerror s).inputAudioProcessor = false
    ∧ (onerror s).playingSources = ∅
    ∧ (onerror s).outputAudioContext = false
    ∧ (onerror s).nextStartTime = 0
    ∧ (onerror (handleStop s)).status = ChatStatus.ERROR
    ∧ (onclose (handleStop s)).status = ChatStatus.DISCONNECTED := by
  refine ⟨?_, ?_, ?_, ?_, ?_, ?_, ?_, ?_, ?_⟩ <;>
    simp [onerror, onclose, handleStop, cleanup_eq]

end VideoChat
